import Mathlib

/-!
Verification of the rustybt market-data plane against its specification.

Shallow embedding conventions used throughout this file:
* Decimal(18,8) prices and volumes are embedded as `Int` (the scaled integral
  value); all comparisons in the source are exact decimal comparisons, which
  the integer order mirrors faithfully.
* `pd.Timestamp` values are embedded as `Int` microseconds since the UTC
  epoch; `Timestamp.date()` is floor division by the number of microseconds
  per day (Python/pandas floor toward minus infinity, as does `Int` division
  by a positive divisor here).
* Polars DataFrames are embedded as `List` of row structures; a frame that is
  well-typed in the embedding always passes the source's dtype/schema checks,
  so those checks are identity steps and are noted where they occur.
* Fallible Python code (raise) is embedded with `Except`; the exception class
  is an inductive error type.
* SQLite tables are embedded as lists of row structures inside a database
  structure; SQL UPDATE/DELETE/INSERT become list map/filter/append.
-/

/- ===================== rustybt/data/polars/validation.py ===================== -/

/-- One OHLCV bar row (columns `open`,`high`,`low`,`close`,`volume` of the
canonical schema, Decimal(18,8) embedded as scaled `Int`). `open` is a Lean
keyword, hence the field name `open_`. -/
structure OhlcvBar where
  open_ : Int
  high : Int
  low : Int
  close : Int
  volume : Int
deriving DecidableEq, Repr

/-- The check that failed, identifying which `ValidationError` raise in
`validate_ohlcv_relationships` fired (source lines 55-143). -/
inductive ValidationCheck where
  | highVsLow
  | highVsOpen
  | highVsClose
  | lowVsOpen
  | lowVsClose
  | nonNegativePrices
deriving DecidableEq, Repr

/-- Embedding of `validate_ohlcv_relationships` (validation.py lines 27-146):
six sequential filter-and-raise checks; returns `True` if all pass. The
source raises `ValidationError`; the error value records which check fired.
Note: the source has no check on the `volume` column. -/
def validate_ohlcv_relationships (df : List OhlcvBar) : Except ValidationCheck Bool :=
  let invalid_hl := df.filter (fun r => decide (r.high < r.low))
  if invalid_hl.length > 0 then .error .highVsLow
  else
    let invalid_ho := df.filter (fun r => decide (r.high < r.open_))
    if invalid_ho.length > 0 then .error .highVsOpen
    else
      let invalid_hc := df.filter (fun r => decide (r.high < r.close))
      if invalid_hc.length > 0 then .error .highVsClose
      else
        let invalid_lo := df.filter (fun r => decide (r.low > r.open_))
        if invalid_lo.length > 0 then .error .lowVsOpen
        else
          let invalid_lc := df.filter (fun r => decide (r.low > r.close))
          if invalid_lc.length > 0 then .error .lowVsClose
          else
            let negative_prices := df.filter (fun r =>
              decide (r.open_ < 0 ∨ r.high < 0 ∨ r.low < 0 ∨ r.close < 0))
            if negative_prices.length > 0 then .error .nonNegativePrices
            else .ok true

/- ===================== rustybt/data/polars/data_portal.py ===================== -/

/-- Error taxonomy of data_portal.py: `ValueError` (invalid field/frequency or
missing reader), `NoDataAvailableError`, `LookaheadError`. -/
inductive PortalError where
  | valueError
  | noDataAvailable
  | lookaheadError
deriving DecidableEq, Repr

/-- Microseconds per day (pandas timestamps have microsecond precision). -/
def usPerDay : Int := 86400000000

/-- Microseconds per minute. -/
def usPerMinute : Int := 60000000

/-- Embedding of `pd.Timestamp.date()` as a day number: floor division of the microsecond
instant by the length of a day (floor toward minus infinity, as in Python). -/
def dateOf (t : Int) : Int := t / usPerDay

/-- A bar row served by a reader. For daily rows `t` is the `date` column as a
day number; for minute rows `t` is the `timestamp` column in microseconds. -/
structure BarRow where
  t : Int
  sid : Int
  open_ : Int
  high : Int
  low : Int
  close : Int
  volume : Int
deriving DecidableEq, Repr

/-- A reader (`PolarsParquetDailyReader.load_daily_bars` resp.
`PolarsParquetMinuteReader.load_minute_bars`, both outside src/): a function
from (sids, range start, range end) to the rows it serves. The portal
theorems below quantify over arbitrary reader functions, so they do not
depend on any reader contract. -/
def Reader : Type := List Int → Int → Int → List BarRow

/-- Embedding of `Asset` as the only attribute the portal reads: `sid`. -/
structure Asset where
  sid : Int
deriving DecidableEq, Repr

/-- Embedding of `PolarsDataPortal` state (data_portal.py lines 53-82). -/
structure PolarsDataPortal where
  daily_reader : Option Reader
  minute_reader : Option Reader
  current_simulation_time : Option Int

/-- Embedding of `PolarsDataPortal.set_simulation_time` (lines 84-91): the
source assigns `self.current_simulation_time = dt` unconditionally; there is
no comparison against the previous value. -/
def PolarsDataPortal.set_simulation_time (p : PolarsDataPortal) (dt : Int) :
    PolarsDataPortal :=
  { p with current_simulation_time := some dt }

/-- The `valid_fields` list of `get_spot_value` / `get_history_window`. -/
def valid_fields : List String := ["open", "high", "low", "close", "volume"]

/-- Column selection `df[field]` for a valid field. -/
def BarRow.get (r : BarRow) (field : String) : Int :=
  if field = "open" then r.open_
  else if field = "high" then r.high
  else if field = "low" then r.low
  else if field = "close" then r.close
  else r.volume

/-- The lookahead test of both query methods:
`self.current_simulation_time is not None and dt > self.current_simulation_time`. -/
def lookahead_check (p : PolarsDataPortal) (dt : Int) : Bool :=
  match p.current_simulation_time with
  | some now => decide (now < dt)
  | none => false

/-- Embedding of `PolarsDataPortal.get_spot_value` (lines 93-184) up to and
including the exact-time filter: field validation, lookahead check, reader
selection, load, emptiness checks and the `date == dt.date()` (daily) resp.
`timestamp == dt` (minute) filter. The exceptions raised when loading fails
are embedded by the total reader function (the `except` branch maps them to
`NoDataAvailableError`, which the emptiness branch below also produces). -/
def get_spot_frame (p : PolarsDataPortal) (assets : List Asset) (field : String)
    (dt : Int) (data_frequency : String) : Except PortalError (List BarRow) :=
  if field ∉ valid_fields then .error .valueError
  else if lookahead_check p dt then .error .lookaheadError
  else if data_frequency = "daily" then
    match p.daily_reader with
    | none => .error .valueError
    | some reader =>
      let sids := assets.map Asset.sid
      let df := reader sids (dateOf dt) (dateOf dt)
      if df.isEmpty then .error .noDataAvailable
      else
        let df2 := df.filter (fun r => decide (r.t = dateOf dt))
        if df2.isEmpty then .error .noDataAvailable
        else .ok df2
  else if data_frequency = "minute" then
    match p.minute_reader with
    | none => .error .valueError
    | some reader =>
      let sids := assets.map Asset.sid
      let df := reader sids dt dt
      if df.isEmpty then .error .noDataAvailable
      else
        let df2 := df.filter (fun r => decide (r.t = dt))
        if df2.isEmpty then .error .noDataAvailable
        else .ok df2
  else .error .valueError

/-- Embedding of `PolarsDataPortal.get_spot_value` (lines 93-184): the final
`df.select([sid, field]); return result[field]` projection of the filtered
frame. -/
def PolarsDataPortal.get_spot_value (p : PolarsDataPortal) (assets : List Asset)
    (field : String) (dt : Int) (data_frequency : String) :
    Except PortalError (List Int) :=
  (get_spot_frame p assets field dt data_frequency).map
    (fun df => df.map (fun r => r.get field))

/-- The `tail(bar_count)` step of a Polars group aggregation: the last `n` elements. -/
def tailN {α : Type} (l : List α) (n : Nat) : List α := l.drop (l.length - n)

/-- The `group_by("sid").agg(sort_by(time).tail(bar_count)).explode` step of
`get_history_window` (lines 281-283): per distinct sid, the last `bar_count`
rows in ascending time order. -/
def history_group (df : List BarRow) (bar_count : Nat) : List BarRow :=
  ((df.map BarRow.sid).dedup).flatMap (fun s =>
    tailN ((df.filter (fun r => decide (r.sid = s))).mergeSort
      (fun a b => decide (a.t ≤ b.t))) bar_count)

/-- Embedding of `PolarsDataPortal.get_history_window` (lines 186-299):
field validation, lookahead check on `end_dt`, reader selection, load of an
over-approximated window, `date <= end_dt.date()` (daily) resp.
`timestamp <= end_dt` (minute) filter, group-by-sid tail, and the final
`(time, sid, field)` selection. The unused aggregation parameter `frequency`
of the source is kept in the signature. -/
def PolarsDataPortal.get_history_window (p : PolarsDataPortal)
    (assets : List Asset) (end_dt : Int) (bar_count : Nat)
    (frequency : String) (field : String) (data_frequency : String) :
    Except PortalError (List (Int × Int × Int)) :=
  if field ∉ valid_fields then .error .valueError
  else if lookahead_check p end_dt then .error .lookaheadError
  else if data_frequency = "daily" then
    match p.daily_reader with
    | none => .error .valueError
    | some reader =>
      let sids := assets.map Asset.sid
      let start_date := dateOf (end_dt - (bar_count : Int) * 2 * usPerDay)
      let df := reader sids start_date (dateOf end_dt)
      if df.isEmpty then .error .noDataAvailable
      else
        let df2 := df.filter (fun r => decide (r.t ≤ dateOf end_dt))
        let df3 := history_group df2 bar_count
        .ok (df3.map (fun r => (r.t, r.sid, r.get field)))
  else if data_frequency = "minute" then
    match p.minute_reader with
    | none => .error .valueError
    | some reader =>
      let sids := assets.map Asset.sid
      let start_dt := end_dt - (bar_count : Int) * 2 * usPerMinute
      let df := reader sids start_dt end_dt
      if df.isEmpty then .error .noDataAvailable
      else
        let df2 := df.filter (fun r => decide (r.t ≤ end_dt))
        let df3 := history_group df2 bar_count
        .ok (df3.map (fun r => (r.t, r.sid, r.get field)))
  else .error .valueError

/-- The instant a returned row stands for, in microseconds: a daily row's
`date` is the start of its day, a minute row's `timestamp` is itself. -/
def rowInstant (data_frequency : String) (t : Int) : Int :=
  if data_frequency = "daily" then usPerDay * t else t

/- ===================== rustybt/data/bundles/metadata.py ===================== -/

/-- Row of the `bundle_metadata` table (one per bundle, keyed by name). -/
structure BundleRow where
  bundle_name : String
  source_type : String
  source_url : Option String
  api_version : Option String
  fetch_timestamp : Int
  data_version : Option String
  checksum : String
  timezone : Option String
  created_at : Int
  updated_at : Int
deriving DecidableEq, Repr

/-- Row of the append-only `data_quality_metrics` table. -/
structure QualityRow where
  bundle_name : String
  row_count : Option Int
  start_date : Option Int
  end_date : Option Int
  missing_days_count : Option Int
  missing_days_list : Option String
  outlier_count : Option Int
  ohlcv_violations : Option Int
  validation_timestamp : Int
  validation_passed : Option Bool
deriving DecidableEq, Repr

/-- Row of the `bundle_symbols` table (autoincrement `id`). -/
structure SymbolRow where
  id : Int
  bundle_name : String
  symbol : String
  asset_type : Option String
  exchange : Option String
deriving DecidableEq, Repr

/-- Row of the `bundle_cache` table (keyed by `cache_key`). -/
structure CacheRow where
  cache_key : String
  bundle_name : String
  bundle_path : String
  fetch_timestamp : Int
  size_bytes : Int
  last_accessed : Int
deriving DecidableEq, Repr

/-- The four tables of the unified metadata SQLite database. -/
structure BundleDB where
  bundle_metadata : List BundleRow
  data_quality_metrics : List QualityRow
  bundle_symbols : List SymbolRow
  bundle_cache : List CacheRow
deriving DecidableEq, Repr

/-- The `**metadata` keyword arguments accepted by `BundleMetadata.update`
(metadata.py lines 96-194): every recognized key as an optional value; a
`none` field means the keyword was not supplied. The first seven fields are
the `bundle_field_names` set, the rest the `quality_field_names` set. -/
structure UpdateFields where
  source_type : Option String
  source_url : Option String
  api_version : Option String
  fetch_timestamp : Option Int
  data_version : Option String
  checksum : Option String
  timezone : Option String
  row_count : Option Int
  start_date : Option Int
  end_date : Option Int
  missing_days_count : Option Int
  missing_days_list : Option String
  outlier_count : Option Int
  ohlcv_violations : Option Int
  validation_timestamp : Option Int
  validation_passed : Option Bool
deriving DecidableEq, Repr

/-- An `UpdateFields` with no keyword supplied. -/
def UpdateFields.empty : UpdateFields :=
  ⟨none, none, none, none, none, none, none, none,
   none, none, none, none, none, none, none, none⟩

/-- Whether any key of the `bundle_field_names` set was supplied. -/
def UpdateFields.hasBundleFields (u : UpdateFields) : Bool :=
  u.source_type.isSome || u.source_url.isSome || u.api_version.isSome ||
  u.fetch_timestamp.isSome || u.data_version.isSome || u.checksum.isSome ||
  u.timezone.isSome

/-- Whether any key of the `quality_field_names` set was supplied. -/
def UpdateFields.hasQualityFields (u : UpdateFields) : Bool :=
  u.row_count.isSome || u.start_date.isSome || u.end_date.isSome ||
  u.missing_days_count.isSome || u.missing_days_list.isSome ||
  u.outlier_count.isSome || u.ohlcv_violations.isSome ||
  u.validation_timestamp.isSome || u.validation_passed.isSome

/-- The SQL UPDATE of an existing `bundle_metadata` row: supplied bundle
fields overwrite, `updated_at` is stamped, everything else is kept. -/
def applyBundleFields (r : BundleRow) (u : UpdateFields) (current_time : Int) :
    BundleRow :=
  { r with
    source_type := u.source_type.getD r.source_type
    source_url := (u.source_url.map some).getD r.source_url
    api_version := (u.api_version.map some).getD r.api_version
    fetch_timestamp := u.fetch_timestamp.getD r.fetch_timestamp
    data_version := (u.data_version.map some).getD r.data_version
    checksum := u.checksum.getD r.checksum
    timezone := (u.timezone.map some).getD r.timezone
    updated_at := current_time }

/-- The SQL INSERT of a new `bundle_metadata` row (lines 163-174): defaults
`source_type="unknown"`, `fetch_timestamp=current_time`, `checksum=""` when
not supplied; unsupplied optional columns stay NULL. -/
def newBundleRow (bundle_name : String) (u : UpdateFields) (current_time : Int) :
    BundleRow :=
  { bundle_name := bundle_name
    source_type := u.source_type.getD "unknown"
    source_url := u.source_url
    api_version := u.api_version
    fetch_timestamp := u.fetch_timestamp.getD current_time
    data_version := u.data_version
    checksum := u.checksum.getD ""
    timezone := u.timezone
    created_at := current_time
    updated_at := current_time }

/-- The SQL INSERT into `data_quality_metrics` (lines 176-186):
`validation_timestamp` defaults to `current_time` when not supplied. -/
def newQualityRow (bundle_name : String) (u : UpdateFields) (current_time : Int) :
    QualityRow :=
  { bundle_name := bundle_name
    row_count := u.row_count
    start_date := u.start_date
    end_date := u.end_date
    missing_days_count := u.missing_days_count
    missing_days_list := u.missing_days_list
    outlier_count := u.outlier_count
    ohlcv_violations := u.ohlcv_violations
    validation_timestamp := u.validation_timestamp.getD current_time
    validation_passed := u.validation_passed }

/-- Embedding of `BundleMetadata.update` (metadata.py lines 96-194).
`current_time` stands for the `int(time.time())` read at entry. -/
def BundleMetadata.update (db : BundleDB) (bundle_name : String)
    (u : UpdateFields) (current_time : Int) : BundleDB :=
  let db1 :=
    if db.bundle_metadata.any (fun r => decide (r.bundle_name = bundle_name)) then
      if u.hasBundleFields then
        { db with bundle_metadata := db.bundle_metadata.map (fun r =>
            if r.bundle_name = bundle_name then applyBundleFields r u current_time
            else r) }
      else db
    else
      { db with bundle_metadata :=
          db.bundle_metadata ++ [newBundleRow bundle_name u current_time] }
  if u.hasQualityFields then
    { db1 with data_quality_metrics :=
        db1.data_quality_metrics ++ [newQualityRow bundle_name u current_time] }
  else db1

/-- Embedding of `BundleMetadata.delete` (metadata.py lines 322-355): deletes
the bundle's `data_quality_metrics`, `bundle_cache` and `bundle_metadata`
rows (in that order) and returns whether a `bundle_metadata` row was hit.
The source issues no DELETE against `bundle_symbols`. -/
def BundleMetadata.delete (db : BundleDB) (bundle_name : String) :
    BundleDB × Bool :=
  let rowcount :=
    (db.bundle_metadata.filter (fun r => decide (r.bundle_name = bundle_name))).length
  ({ db with
      data_quality_metrics :=
        db.data_quality_metrics.filter (fun r => decide (r.bundle_name ≠ bundle_name))
      bundle_cache :=
        db.bundle_cache.filter (fun r => decide (r.bundle_name ≠ bundle_name))
      bundle_metadata :=
        db.bundle_metadata.filter (fun r => decide (r.bundle_name ≠ bundle_name)) },
   rowcount > 0)

/-- The autoincrement primary key SQLite hands the INSERT into
`bundle_symbols`: one more than the largest id in use. -/
def nextSymbolId (db : BundleDB) : Int :=
  (db.bundle_symbols.map SymbolRow.id).foldr max 0 + 1

/-- Embedding of `BundleMetadata.add_symbol` (metadata.py lines 361-431):
upsert on (bundle_name, symbol); an existing row gets its `asset_type` and
`exchange` overwritten, otherwise a new row is inserted. Returns the id. -/
def BundleMetadata.add_symbol (db : BundleDB) (bundle_name symbol : String)
    (asset_type exchange : Option String) : BundleDB × Int :=
  match db.bundle_symbols.find? (fun r =>
      decide (r.bundle_name = bundle_name ∧ r.symbol = symbol)) with
  | some existing =>
    ({ db with bundle_symbols := db.bundle_symbols.map (fun r =>
        if r.bundle_name = bundle_name ∧ r.symbol = symbol then
          { r with asset_type := asset_type, exchange := exchange }
        else r) },
     existing.id)
  | none =>
    let newId := nextSymbolId db
    ({ db with bundle_symbols := db.bundle_symbols ++
        [{ id := newId, bundle_name := bundle_name, symbol := symbol,
           asset_type := asset_type, exchange := exchange }] },
     newId)

/-- Embedding of `BundleMetadata.add_cache_entry` (metadata.py lines 471-515):
if a row with the key exists, only its `last_accessed` is set to the current
time; otherwise a new row is inserted with both timestamps at the current
time. `current_time` stands for the `int(time.time())` read at entry. -/
def BundleMetadata.add_cache_entry (db : BundleDB) (cache_key bundle_name : String)
    (parquet_path : String) (size_bytes : Int) (current_time : Int) : BundleDB :=
  match db.bundle_cache.find? (fun r => decide (r.cache_key = cache_key)) with
  | some _ =>
    { db with bundle_cache := db.bundle_cache.map (fun r =>
        if r.cache_key = cache_key then { r with last_accessed := current_time }
        else r) }
  | none =>
    { db with bundle_cache := db.bundle_cache ++
        [{ cache_key := cache_key, bundle_name := bundle_name,
           bundle_path := parquet_path, fetch_timestamp := current_time,
           size_bytes := size_bytes, last_accessed := current_time }] }

/- ===================== rustybt/data/polars/parquet_writer.py ===================== -/

/-- A calendar date as carried by the `date` column of a daily-bars frame; the
writer reads only `.year` and `.month` (and the row order) from it. -/
structure PDate where
  year : Int
  month : Int
  day : Int
deriving DecidableEq, Repr

/-- One row of a daily-bars frame in the canonical `DAILY_BARS_SCHEMA`. -/
structure DailyBar where
  date : PDate
  sid : Int
  open_ : Int
  high : Int
  low : Int
  close : Int
  volume : Int
deriving DecidableEq, Repr

/-- A Hive partition directory `year=YYYY/month=MM` under `daily_bars/`. -/
def Partition : Type := Int × Int

instance : DecidableEq Partition := instDecidableEqProd

/-- The files of one partition directory: the content of `data.parquet` (if
present) and the content of the sibling `.data.parquet.tmp.*` file (if
present). File contents are the row list they hold; the embedding has no
notion of a physically partial file, matching the claim that readers only
ever see complete files. -/
structure PartitionDir where
  final : Option (List DailyBar)
  temp : Option (List DailyBar)
deriving DecidableEq, Repr

/-- The empty partition directory (no files). -/
def PartitionDir.empty : PartitionDir := ⟨none, none⟩

/-- The daily-bars directory tree: an association list from partition to its
directory contents; absent partitions are empty directories. -/
def ParquetFS : Type := List (Partition × PartitionDir)

instance : DecidableEq ParquetFS := instDecidableEqList

/-- Directory lookup: the most recent binding for the partition wins. -/
def fsGet (fs : ParquetFS) (p : Partition) : PartitionDir :=
  match fs with
  | [] => PartitionDir.empty
  | e :: rest => if e.1 = p then e.2 else fsGet rest p

/-- Replace one partition's directory contents (shadowing binding). -/
def fsSet (fs : ParquetFS) (p : Partition) (d : PartitionDir) : ParquetFS :=
  (p, d) :: fs

/-- Embedding of `pq.write_table(arrow_table, temp_file, ...)`: create the temp file with
the full frame contents in the partition directory. -/
def writeTempFile (fs : ParquetFS) (p : Partition) (df : List DailyBar) : ParquetFS :=
  fsSet fs p { fsGet fs p with temp := some df }

/-- Embedding of `temp_file.rename(output_file)`: the temp file becomes `data.parquet`. -/
def renameTempFile (fs : ParquetFS) (p : Partition) : ParquetFS :=
  let d := fsGet fs p
  fsSet fs p { final := d.temp, temp := none }

/-- The `except` cleanup `if temp_file.exists(): temp_file.unlink()`. -/
def removeTempFile (fs : ParquetFS) (p : Partition) : ParquetFS :=
  fsSet fs p { fsGet fs p with temp := none }

/-- Where a run of `_write_partitioned_parquet` can fail: the
`pq.write_table` call or the `temp_file.rename` call (the two fallible
statements inside its `try`). `none` means both succeed. -/
inductive WriteFailure where
  | write
  | rename
deriving DecidableEq, Repr

/-- Embedding of `ParquetWriter._write_partitioned_parquet` (parquet_writer.py
lines 292-361): the partition is taken from the FIRST row only
(`df.row(0, named=True)`), the whole frame is written to a temp file in that
partition directory and renamed to `data.parquet`; on failure the temp file
is removed and a `RuntimeError` is raised. An empty frame makes `df.row(0)`
raise. Returns the filesystem after the call and the written path. -/
def _write_partitioned_parquet (df : List DailyBar) (fs : ParquetFS)
    (fail : Option WriteFailure) : ParquetFS × Except String Partition :=
  match df with
  | [] => (fs, .error "row index out of bounds")
  | first :: _ =>
    let partition : Partition := (first.date.year, first.date.month)
    match fail with
    | some .write =>
      (removeTempFile fs partition, .error "Failed to write Parquet file")
    | some .rename =>
      (removeTempFile (writeTempFile fs partition df) partition,
       .error "Failed to write Parquet file")
    | none =>
      (renameTempFile (writeTempFile fs partition df) partition, .ok partition)

/-- The result record of `ParquetWriter._validate_ohlcv`. -/
structure ValidationSummary where
  violations : Nat
  passed : Bool
deriving DecidableEq, Repr

/-- Embedding of `ParquetWriter._validate_ohlcv` (parquet_writer.py lines
460-489): counts rows violating the five price relations; `passed` iff the
count is zero. The early return for frames without OHLCV columns cannot fire
on a typed daily-bars frame. Volume and negative prices are not checked. -/
def ParquetWriter._validate_ohlcv (df : List DailyBar) : ValidationSummary :=
  let invalid_rows := df.filter (fun r =>
    decide (r.high < r.low ∨ r.high < r.open_ ∨ r.high < r.close ∨
            r.low > r.open_ ∨ r.low > r.close))
  { violations := invalid_rows.length, passed := decide (invalid_rows.length = 0) }

/-- Embedding of `ParquetWriter._infer_asset_type` (lines 491-509). -/
def ParquetWriter._infer_asset_type (symbol : String) : String :=
  if symbol.toList.contains '/' ∨ symbol.toList.contains '-' then "crypto"
  else if symbol.length ≥ 4 ∧ ((symbol.toList.reverse.take 2).all Char.isDigit) then
    "future"
  else "equity"

/-- The `source_metadata` dict passed to `write_daily_bars`; symbol entries
are embedded in their plain-string form (the dict form differs only in
per-symbol overrides). -/
structure SourceMetadata where
  source_type : Option String
  source_url : Option String
  api_version : Option String
  symbols : List String
  exchange : Option String
deriving DecidableEq, Repr

/-- Model of `hashlib.sha256(output_path.read_bytes()).hexdigest()`: a
deterministic digest of the written file's contents. -/
def fileChecksum (df : List DailyBar) : String := toString (repr df)

/-- Embedding of `ParquetWriter.write_daily_bars` (parquet_writer.py lines
99-226) for a writer whose `ParquetMetadataCatalog` branch is off
(`dataset_id=None`, as in the default call): `validate_schema` passes on any
typed frame (identity step), the year/month partition columns are derived
inside `_write_partitioned_parquet` from the first row, the frame is written,
and afterwards — only when both `source_metadata` and `bundle_name` are given
— provenance is upserted via `BundleMetadata.update`, `_validate_ohlcv` is
computed (its result is only logged: nothing aborts on violations), and
symbols are upserted. Returns the filesystem, the catalog database and the
written path; a write failure propagates before any catalog update. -/
def ParquetWriter.write_daily_bars (df : List DailyBar) (fs : ParquetFS)
    (db : BundleDB) (source_metadata : Option SourceMetadata)
    (bundle_name : Option String) (fail : Option WriteFailure)
    (current_time : Int) : (ParquetFS × BundleDB) × Except String Partition :=
  let (fs1, res) := _write_partitioned_parquet df fs fail
  match res with
  | .error e => ((fs1, db), .error e)
  | .ok output_path =>
    match source_metadata, bundle_name with
    | some sm, some bn =>
      let provenance : UpdateFields :=
        { UpdateFields.empty with
            source_type := sm.source_type
            source_url := sm.source_url
            api_version := sm.api_version
            fetch_timestamp := some current_time
            checksum := some (fileChecksum df) }
      let db1 := BundleMetadata.update db bn provenance current_time
      let _validation_result := ParquetWriter._validate_ohlcv df
      let db2 := sm.symbols.foldl (fun acc s =>
        (BundleMetadata.add_symbol acc bn s
          (some (ParquetWriter._infer_asset_type s)) sm.exchange).1) db1
      ((fs1, db2), .ok output_path)
    | _, _ => ((fs1, db), .ok output_path)

/- ============== rustybt/data/adapters/{polygon,alpaca,alphavantage}_adapter.py ============== -/

/-- Adapter error taxonomy used by the parse paths (api_provider_base is
outside src/; only the constructors raised by the adapters in src/ appear). -/
inductive AdapterError where
  | dataParsing
  | symbolNotFound
deriving DecidableEq, Repr

/-- One row of the adapters' STANDARD_SCHEMA frame: UTC microsecond
`timestamp`, `symbol`, and Decimal(18,8) prices/volume as scaled `Int`. -/
structure AdapterRow where
  timestamp : Int
  symbol : String
  open_ : Int
  high : Int
  low : Int
  close : Int
  volume : Int
deriving DecidableEq, Repr

/-- One element of Polygon's `results` array, after the
`Decimal(str(...))` wire decoding of its numeric fields (`t` is the bar's
timestamp, converted from milliseconds to a UTC instant). -/
structure PolyAgg where
  t : Int
  o : Int
  h : Int
  l : Int
  c : Int
  v : Int
deriving DecidableEq, Repr

/-- One element of Alpaca's `bars` array, after wire decoding (`t` is the
RFC3339 timestamp converted to a UTC instant). -/
structure AlpacaBar where
  t : Int
  o : Int
  h : Int
  l : Int
  c : Int
  v : Int
deriving DecidableEq, Repr

/-- Embedding of `PolygonAdapter.standardize` (polygon_adapter.py lines
324-357): on a typed frame the timestamp-dtype and Decimal-cast branches are
identity, so the operative steps are the stable ascending sort by `timestamp`
and the STANDARD_SCHEMA column selection (identity on `AdapterRow`).
No de-duplication is performed. -/
def PolygonAdapter.standardize (df : List AdapterRow) : List AdapterRow :=
  df.mergeSort (fun a b => decide (a.timestamp ≤ b.timestamp))

/-- Embedding of `AlpacaAdapter.standardize` (alpaca_adapter.py lines
216-249), identical in structure to the Polygon one. -/
def AlpacaAdapter.standardize (df : List AdapterRow) : List AdapterRow :=
  df.mergeSort (fun a b => decide (a.timestamp ≤ b.timestamp))

/-- Embedding of `AlphaVantageAdapter.standardize` (alphavantage_adapter.py
lines 330-363), identical in structure to the Polygon one. -/
def AlphaVantageAdapter.standardize (df : List AdapterRow) : List AdapterRow :=
  df.mergeSort (fun a b => decide (a.timestamp ≤ b.timestamp))

/-- Embedding of `PolygonAdapter._parse_aggregates_response` (polygon_adapter.py
lines 203-251): `results` is the decoded `data["results"]` array (a missing
key decodes to the empty list); when it is empty the source raises
`DataParsingError("No results found ...")`, otherwise the rows are built and
standardized. -/
def PolygonAdapter._parse_aggregates_response (results : List PolyAgg)
    (symbol : String) : Except AdapterError (List AdapterRow) :=
  if results.isEmpty then .error .dataParsing
  else .ok (PolygonAdapter.standardize (results.map (fun r =>
    { timestamp := r.t, symbol := symbol, open_ := r.o, high := r.h,
      low := r.l, close := r.c, volume := r.v })))

/-- Embedding of `AlpacaAdapter._parse_bars_response` (alpaca_adapter.py lines
154-200): `bars` is the decoded `data.get("bars", [])` array; when it is
empty the source raises `DataParsingError("No bars found ...")`, otherwise
the rows are built and standardized. -/
def AlpacaAdapter._parse_bars_response (bars : List AlpacaBar)
    (symbol : String) : Except AdapterError (List AdapterRow) :=
  if bars.isEmpty then .error .dataParsing
  else .ok (AlpacaAdapter.standardize (bars.map (fun r =>
    { timestamp := r.t, symbol := symbol, open_ := r.o, high := r.h,
      low := r.l, close := r.c, volume := r.v })))

/- ===================== spec-side predicates and concrete fixtures ===================== -/

/-- The claim's full per-row invariant, following the spec's words:
high ≥ max(open, close), low ≤ min(open, close), high ≥ low, all prices ≥ 0,
volume ≥ 0. -/
def SpecOhlcvInvariants (r : OhlcvBar) : Prop :=
  r.high ≥ max r.open_ r.close ∧ r.low ≤ min r.open_ r.close ∧
  r.high ≥ r.low ∧ 0 ≤ r.open_ ∧ 0 ≤ r.high ∧ 0 ≤ r.low ∧ 0 ≤ r.close ∧
  0 ≤ r.volume

/-- The invariants the source actually enforces: as above but without the
volume conjunct. -/
def SpecPriceInvariants (r : OhlcvBar) : Prop :=
  r.high ≥ max r.open_ r.close ∧ r.low ≤ min r.open_ r.close ∧
  r.high ≥ r.low ∧ 0 ≤ r.open_ ∧ 0 ≤ r.high ∧ 0 ≤ r.low ∧ 0 ≤ r.close

instance (r : OhlcvBar) : Decidable (SpecOhlcvInvariants r) := by
  unfold SpecOhlcvInvariants; infer_instance

instance (r : OhlcvBar) : Decidable (SpecPriceInvariants r) := by
  unfold SpecPriceInvariants; infer_instance

/-- C3 fixture: a bar whose prices are coherent but whose volume is negative. -/
def negVolumeBar : OhlcvBar := { open_ := 1, high := 2, low := 0, close := 1, volume := -5 }

/-- C3 witness fixture: a fully well-formed bar. -/
def goodBar3 : OhlcvBar := { open_ := 100, high := 105, low := 95, close := 102, volume := 1000 }

/-- C9 fixture: a portal whose simulation clock stands at 2. -/
def portal9 : PolarsDataPortal :=
  { daily_reader := some (fun _ _ _ => []), minute_reader := none,
    current_simulation_time := some 2 }

/-- C1 fixture: a daily reader serving one row for sid 1 on day 0. -/
def reader1 : Reader := fun _ _ _ =>
  [{ t := 0, sid := 1, open_ := 10, high := 12, low := 9, close := 11, volume := 100 }]

/-- C1 fixture: a portal over `reader1` whose simulation clock stands at 0. -/
def portal1 : PolarsDataPortal :=
  { daily_reader := some reader1, minute_reader := none,
    current_simulation_time := some 0 }

/-- C8 fixtures: two distinct rows sharing one timestamp. -/
def dupRowA : AdapterRow :=
  { timestamp := 5, symbol := "X", open_ := 1, high := 1, low := 1, close := 1, volume := 1 }

/-- Second C8 fixture row, same timestamp as `dupRowA`. -/
def dupRowB : AdapterRow :=
  { timestamp := 5, symbol := "X", open_ := 2, high := 2, low := 2, close := 2, volume := 2 }

/-- C4 fixture: one well-formed daily bar dated 2023-01-05. -/
def bar4 : DailyBar :=
  { date := { year := 2023, month := 1, day := 5 }, sid := 1,
    open_ := 10, high := 12, low := 9, close := 11, volume := 100 }

/-- C7 fixture: a row dated in January 2023. -/
def rowJan : DailyBar :=
  { date := { year := 2023, month := 1, day := 31 }, sid := 1,
    open_ := 10, high := 12, low := 9, close := 11, volume := 100 }

/-- C7 fixture: a row dated in February 2023 (a different partition). -/
def rowFeb : DailyBar :=
  { date := { year := 2023, month := 2, day := 1 }, sid := 1,
    open_ := 10, high := 12, low := 9, close := 11, volume := 100 }

/-- C2 fixture: a daily bar with `high < low` (an OHLCV violation). -/
def violRow : DailyBar :=
  { date := { year := 2023, month := 3, day := 1 }, sid := 1,
    open_ := 10, high := 9, low := 12, close := 11, volume := 100 }

/-- C2 fixture: an empty metadata database. -/
def emptyDB2 : BundleDB :=
  { bundle_metadata := [], data_quality_metrics := [], bundle_symbols := [],
    bundle_cache := [] }

/-- C2 fixture: the source metadata handed to the writer. -/
def sm2 : SourceMetadata :=
  { source_type := some "polygon", source_url := some "https://api.polygon.io",
    api_version := some "v2", symbols := [], exchange := none }

/-- C6 fixture: the bundle row of bundle `b`. -/
def bRow6 : BundleRow :=
  { bundle_name := "b", source_type := "polygon", source_url := none,
    api_version := none, fetch_timestamp := 0, data_version := none,
    checksum := "", timezone := none, created_at := 0, updated_at := 0 }

/-- C6 fixture: a quality row of bundle `b`. -/
def qRow6 : QualityRow :=
  { bundle_name := "b", row_count := some 10, start_date := none, end_date := none,
    missing_days_count := none, missing_days_list := none, outlier_count := none,
    ohlcv_violations := some 0, validation_timestamp := 5, validation_passed := some true }

/-- C6 fixture: a symbol row of bundle `b`. -/
def sRow6 : SymbolRow :=
  { id := 1, bundle_name := "b", symbol := "AAPL", asset_type := some "equity",
    exchange := none }

/-- C6 fixture: a cache row of bundle `b`. -/
def cRow6 : CacheRow :=
  { cache_key := "k", bundle_name := "b", bundle_path := "/p",
    fetch_timestamp := 0, size_bytes := 10, last_accessed := 0 }

/-- C6 fixture: a database holding one row of each kind for bundle `b`. -/
def db6 : BundleDB :=
  { bundle_metadata := [bRow6], data_quality_metrics := [qRow6],
    bundle_symbols := [sRow6], bundle_cache := [cRow6] }

/-- C10 fixture: an existing cache row under key `key1`. -/
def cRow10 : CacheRow :=
  { cache_key := "key1", bundle_name := "b10", bundle_path := "/old",
    fetch_timestamp := 50, size_bytes := 111, last_accessed := 7 }

/-- C10 fixture: a database holding only `cRow10`. -/
def db10 : BundleDB :=
  { bundle_metadata := [], data_quality_metrics := [], bundle_symbols := [],
    bundle_cache := [cRow10] }

/- ===================== helper lemmas ===================== -/

/-- A filtered list is nonempty exactly when some element satisfies the
predicate. -/
theorem length_filter_pos {α : Type} {l : List α} {p : α → Bool} :
    0 < (l.filter p).length ↔ ∃ x ∈ l, p x = true := by
  rw [List.length_pos]
  constructor
  · intro h
    rcases hl : l.filter p with _ | ⟨x, xs⟩
    · exact absurd hl h
    · have hx : x ∈ l.filter p := by rw [hl]; exact List.mem_cons_self x xs
      exact ⟨x, (List.mem_filter.mp hx).1, (List.mem_filter.mp hx).2⟩
  · rintro ⟨x, hx, hpx⟩ h
    have hmem : x ∈ l.filter p := List.mem_filter.mpr ⟨hx, hpx⟩
    rw [h] at hmem
    exact absurd hmem (List.not_mem_nil x)

/-- The validator never returns `False`: its only non-raising exit is `True`. -/
theorem validate_ok_shape (df : List OhlcvBar) (b : Bool)
    (h : validate_ohlcv_relationships df = .ok b) : b = true := by
  unfold validate_ohlcv_relationships at h
  dsimp only at h
  split_ifs at h <;> simp_all

/- ===================== claim theorems ===================== -/

/-- C3 (amended): `validate_ohlcv_relationships` returns `True` iff every row
satisfies the PRICE invariants `high ≥ max(open, close)`,
`low ≤ min(open, close)`, `high ≥ low` and all prices `≥ 0`, and raises a
`ValidationError` iff some row violates one of them. The volume column is
not inspected: `volume ≥ 0` is neither required nor checked. -/
theorem C3_validate_iff_price_invariants (df : List OhlcvBar) :
    (validate_ohlcv_relationships df = .ok true ↔ ∀ r ∈ df, SpecPriceInvariants r) ∧
    ((∃ chk, validate_ohlcv_relationships df = .error chk) ↔
      ¬ ∀ r ∈ df, SpecPriceInvariants r) := by
  have key : validate_ohlcv_relationships df = .ok true ↔
      ∀ r ∈ df, SpecPriceInvariants r := by
    unfold validate_ohlcv_relationships
    dsimp only
    split_ifs with h1 h2 h3 h4 h5 h6
    · simp only [reduceCtorEq, false_iff]
      intro hall
      rcases length_filter_pos.mp h1 with ⟨r, hr, hpr⟩
      have hinv := hall r hr
      simp only [SpecPriceInvariants, ge_iff_le, max_le_iff, le_min_iff] at hinv
      simp only [decide_eq_true_eq] at hpr
      omega
    · simp only [reduceCtorEq, false_iff]
      intro hall
      rcases length_filter_pos.mp h2 with ⟨r, hr, hpr⟩
      have hinv := hall r hr
      simp only [SpecPriceInvariants, ge_iff_le, max_le_iff, le_min_iff] at hinv
      simp only [decide_eq_true_eq] at hpr
      omega
    · simp only [reduceCtorEq, false_iff]
      intro hall
      rcases length_filter_pos.mp h3 with ⟨r, hr, hpr⟩
      have hinv := hall r hr
      simp only [SpecPriceInvariants, ge_iff_le, max_le_iff, le_min_iff] at hinv
      simp only [decide_eq_true_eq] at hpr
      omega
    · simp only [reduceCtorEq, false_iff]
      intro hall
      rcases length_filter_pos.mp h4 with ⟨r, hr, hpr⟩
      have hinv := hall r hr
      simp only [SpecPriceInvariants, ge_iff_le, max_le_iff, le_min_iff] at hinv
      simp only [decide_eq_true_eq] at hpr
      omega
    · simp only [reduceCtorEq, false_iff]
      intro hall
      rcases length_filter_pos.mp h5 with ⟨r, hr, hpr⟩
      have hinv := hall r hr
      simp only [SpecPriceInvariants, ge_iff_le, max_le_iff, le_min_iff] at hinv
      simp only [decide_eq_true_eq] at hpr
      omega
    · simp only [reduceCtorEq, false_iff]
      intro hall
      rcases length_filter_pos.mp h6 with ⟨r, hr, hpr⟩
      have hinv := hall r hr
      simp only [SpecPriceInvariants, ge_iff_le, max_le_iff, le_min_iff] at hinv
      simp only [decide_eq_true_eq] at hpr
      omega
    · simp only [true_iff]
      intro r hr
      have n1 : ¬ r.high < r.low := fun hlt =>
        h1 (length_filter_pos.mpr ⟨r, hr, by simpa using hlt⟩)
      have n2 : ¬ r.high < r.open_ := fun hlt =>
        h2 (length_filter_pos.mpr ⟨r, hr, by simpa using hlt⟩)
      have n3 : ¬ r.high < r.close := fun hlt =>
        h3 (length_filter_pos.mpr ⟨r, hr, by simpa using hlt⟩)
      have n4 : ¬ r.low > r.open_ := fun hlt =>
        h4 (length_filter_pos.mpr ⟨r, hr, by simpa using hlt⟩)
      have n5 : ¬ r.low > r.close := fun hlt =>
        h5 (length_filter_pos.mpr ⟨r, hr, by simpa using hlt⟩)
      have n6 : ¬ (r.open_ < 0 ∨ r.high < 0 ∨ r.low < 0 ∨ r.close < 0) := fun hlt =>
        h6 (length_filter_pos.mpr ⟨r, hr, by simpa using hlt⟩)
      simp only [SpecPriceInvariants, ge_iff_le, max_le_iff, le_min_iff]
      omega
  refine ⟨key, ?_, ?_⟩
  · rintro ⟨chk, hchk⟩ hall
    rw [key.mpr hall] at hchk
    exact absurd hchk (by simp)
  · intro hnall
    rcases hres : validate_ohlcv_relationships df with chk | b
    · exact ⟨chk, rfl⟩
    · have hb := validate_ok_shape df b hres
      subst hb
      exact absurd (key.mp hres) hnall

/-- C3 witness: the amended theorem applied to a concrete well-formed batch. -/
theorem C3_validate_iff_price_invariants_witness :
    validate_ohlcv_relationships [goodBar3] = .ok true :=
  (C3_validate_iff_price_invariants [goodBar3]).1.mpr (by decide)

/-- C3 counterexample: a batch whose single row has a negative volume passes
validation (`.ok true`) although the claim's invariant list (which includes
`volume ≥ 0`) is violated, so validation success is NOT equivalent to the
claim's invariants. -/
theorem C3_counterexample :
    validate_ohlcv_relationships [negVolumeBar] = .ok true ∧
    ¬ SpecOhlcvInvariants negVolumeBar := by
  constructor
  · rfl
  · decide

/-- C9 (amended): `set_simulation_time` unconditionally overwrites the
simulation clock with the given timestamp — also when it is less than or
equal to the current value — raising no error; the readers are untouched. -/
theorem C9_set_simulation_time_unconditional (p : PolarsDataPortal) (dt : Int) :
    (p.set_simulation_time dt).current_simulation_time = some dt ∧
    (p.set_simulation_time dt).daily_reader = p.daily_reader ∧
    (p.set_simulation_time dt).minute_reader = p.minute_reader :=
  ⟨rfl, rfl, rfl⟩

/-- C9 counterexample: a portal whose clock stands at 2 accepts
`set_simulation_time 1` — the call is not rejected and the clock does move
backwards, contradicting the claim. -/
theorem C9_counterexample :
    portal9.current_simulation_time = some 2 ∧ (1 : Int) ≤ 2 ∧
    (portal9.set_simulation_time 1).current_simulation_time = some 1 ∧
    (portal9.set_simulation_time 1).current_simulation_time ≠
      portal9.current_simulation_time := by
  refine ⟨rfl, by decide, rfl, by decide⟩

/-- C5 (amended): a provider response with zero bars makes both cited parse
paths raise `DataParsingError` — the call IS an error, not an empty frame. -/
theorem C5_empty_response_is_parse_error (symbol : String) :
    PolygonAdapter._parse_aggregates_response [] symbol = .error .dataParsing ∧
    AlpacaAdapter._parse_bars_response [] symbol = .error .dataParsing :=
  ⟨rfl, rfl⟩

/-- C5 counterexample: for the concrete symbol AAPL and an empty (zero-bar)
provider response, the Polygon and Alpaca parse paths raise
`DataParsingError` instead of returning an empty row sequence. -/
theorem C5_counterexample :
    PolygonAdapter._parse_aggregates_response [] "AAPL" = .error .dataParsing ∧
    (¬ ∃ rows, PolygonAdapter._parse_aggregates_response [] "AAPL" = .ok rows) ∧
    AlpacaAdapter._parse_bars_response [] "AAPL" = .error .dataParsing ∧
    (¬ ∃ rows, AlpacaAdapter._parse_bars_response [] "AAPL" = .ok rows) := by
  refine ⟨rfl, ?_, rfl, ?_⟩
  · rintro ⟨rows, h⟩
    simp [PolygonAdapter._parse_aggregates_response] at h
  · rintro ⟨rows, h⟩
    simp [AlpacaAdapter._parse_bars_response] at h

/-- C8 (amended): each standardize step returns its input rows sorted in
NON-strict ascending timestamp order, as a permutation of the input: rows
with equal timestamps are all kept (no de-duplication). -/
theorem C8_standardize_sorted_not_deduped (df : List AdapterRow) :
    List.Perm (PolygonAdapter.standardize df) df ∧
    List.Pairwise (fun a b => a.timestamp ≤ b.timestamp) (PolygonAdapter.standardize df) ∧
    List.Perm (AlphaVantageAdapter.standardize df) df ∧
    List.Pairwise (fun a b => a.timestamp ≤ b.timestamp)
      (AlphaVantageAdapter.standardize df) := by
  have hs : List.Pairwise
      (fun a b : AdapterRow => (decide (a.timestamp ≤ b.timestamp)) = true)
      (df.mergeSort (fun a b => decide (a.timestamp ≤ b.timestamp))) :=
    List.sorted_mergeSort
      (fun a b c hab hbc => by
        simp only [decide_eq_true_eq] at hab hbc ⊢; omega)
      (fun a b => by
        simp only [Bool.or_eq_true, decide_eq_true_eq]; omega)
      df
  have hp : List.Pairwise (fun a b : AdapterRow => a.timestamp ≤ b.timestamp)
      (df.mergeSort (fun a b => decide (a.timestamp ≤ b.timestamp))) :=
    hs.imp (fun h => by simpa using h)
  exact ⟨List.mergeSort_perm df _, hp, List.mergeSort_perm df _, hp⟩

/-- C8 counterexample: two distinct rows sharing one timestamp pass through
`standardize` unchanged — the output contains two rows with the same
timestamp, so the result is not de-duplicated by time (and the order is not
strictly ascending). -/
theorem C8_counterexample :
    PolygonAdapter.standardize [dupRowA, dupRowB] = [dupRowA, dupRowB] ∧
    dupRowA.timestamp = dupRowB.timestamp ∧ dupRowA ≠ dupRowB := by
  refine ⟨?_, by decide, by decide⟩
  unfold PolygonAdapter.standardize
  apply List.mergeSort_of_sorted
  simp [List.pairwise_cons, dupRowA, dupRowB]

/-- Looking up the partition just set returns exactly what was set. -/
theorem fsGet_fsSet_same (fs : ParquetFS) (p : Partition) (d : PartitionDir) :
    fsGet (fsSet fs p d) p = d := by
  unfold fsGet fsSet
  simp

/-- Setting one partition leaves every other partition's lookup unchanged. -/
theorem fsGet_fsSet_other (fs : ParquetFS) (p q : Partition) (d : PartitionDir)
    (h : q ≠ p) : fsGet (fsSet fs p d) q = fsGet fs q := by
  unfold fsSet
  rw [fsGet]
  exact if_neg (fun hpq => h hpq.symm)

/-- C6: `BundleMetadata.delete` removes the bundle's metadata, quality and
cache rows and reports success, but its symbol rows survive — on the concrete
one-bundle catalog the `bundle_symbols` row for bundle `b` is still present
after `delete "b"`, and in general `delete` never touches `bundle_symbols`,
contradicting the claim (and the spec's cascade to symbols). -/
theorem C6_delete_leaves_symbol_rows :
    (BundleMetadata.delete db6 "b").1.bundle_metadata = [] ∧
    (BundleMetadata.delete db6 "b").1.data_quality_metrics = [] ∧
    (BundleMetadata.delete db6 "b").1.bundle_cache = [] ∧
    (BundleMetadata.delete db6 "b").1.bundle_symbols = [sRow6] ∧
    (BundleMetadata.delete db6 "b").2 = true ∧
    (∀ db bname, (BundleMetadata.delete db bname).1.bundle_symbols = db.bundle_symbols) :=
  ⟨rfl, rfl, rfl, rfl, rfl, fun _ _ => rfl⟩

/-- C10: `add_cache_entry` on an existing cache key only refreshes that row's
`last_accessed`; `cache_key`, `bundle_name`, `bundle_path`,
`fetch_timestamp` and `size_bytes` keep their old values even though the
call supplies new ones, no second row is created, and the other tables are
untouched. -/
theorem C10_add_cache_entry_existing_key (db : BundleDB)
    (cache_key bundle_name parquet_path : String) (size_bytes current_time : Int)
    (h : ∃ r ∈ db.bundle_cache, r.cache_key = cache_key) :
    (BundleMetadata.add_cache_entry db cache_key bundle_name parquet_path
        size_bytes current_time).bundle_cache
      = db.bundle_cache.map (fun r =>
          if r.cache_key = cache_key then { r with last_accessed := current_time }
          else r) ∧
    (BundleMetadata.add_cache_entry db cache_key bundle_name parquet_path
        size_bytes current_time).bundle_cache.length = db.bundle_cache.length ∧
    (BundleMetadata.add_cache_entry db cache_key bundle_name parquet_path
        size_bytes current_time).bundle_cache.map
        (fun r => (r.cache_key, r.bundle_name, r.bundle_path, r.fetch_timestamp,
                   r.size_bytes))
      = db.bundle_cache.map
        (fun r => (r.cache_key, r.bundle_name, r.bundle_path, r.fetch_timestamp,
                   r.size_bytes)) ∧
    (BundleMetadata.add_cache_entry db cache_key bundle_name parquet_path
        size_bytes current_time).bundle_metadata = db.bundle_metadata ∧
    (BundleMetadata.add_cache_entry db cache_key bundle_name parquet_path
        size_bytes current_time).data_quality_metrics = db.data_quality_metrics ∧
    (BundleMetadata.add_cache_entry db cache_key bundle_name parquet_path
        size_bytes current_time).bundle_symbols = db.bundle_symbols := by
  have hfind : (db.bundle_cache.find? (fun r => decide (r.cache_key = cache_key))).isSome := by
    rw [List.find?_isSome]
    rcases h with ⟨r, hr, hk⟩
    exact ⟨r, hr, by simpa using hk⟩
  unfold BundleMetadata.add_cache_entry
  rcases hf : db.bundle_cache.find? (fun r => decide (r.cache_key = cache_key)) with _ | e
  · rw [hf] at hfind; simp at hfind
  · rw [hf]
    dsimp only
    have hmap : (db.bundle_cache.map (fun r =>
        if r.cache_key = cache_key then { r with last_accessed := current_time }
        else r)).map
        (fun r => (r.cache_key, r.bundle_name, r.bundle_path, r.fetch_timestamp,
                   r.size_bytes))
      = db.bundle_cache.map
        (fun r => (r.cache_key, r.bundle_name, r.bundle_path, r.fetch_timestamp,
                   r.size_bytes)) := by
      rw [List.map_map]
      apply List.map_congr_left
      intro r _
      by_cases hr : r.cache_key = cache_key <;> simp [hr, Function.comp]
    exact ⟨rfl, by simp, hmap, rfl, rfl, rfl⟩

/-- C10 witness: the theorem applied to the one-row concrete cache. -/
theorem C10_add_cache_entry_existing_key_witness :
    (BundleMetadata.add_cache_entry db10 "key1" "other" "/new" 999 42).bundle_cache =
      [{ cRow10 with last_accessed := 42 }] := by
  have h := C10_add_cache_entry_existing_key db10 "key1" "other" "/new" 999 42
    ⟨cRow10, by simp [db10], rfl⟩
  rw [h.1]
  rfl

/-- C4: `_write_partitioned_parquet` is atomic. On success the target
partition's `data.parquet` holds exactly the newly written complete frame
and no temp file remains; on failure (whether the temp-file write or the
rename failed) an error is raised, the temp file is removed, and the target
partition's `data.parquet` is unchanged. Other partitions are never touched. -/
theorem C4_atomic_write (df : List DailyBar) (first : DailyBar) (rest : List DailyBar)
    (fs : ParquetFS) (fail : Option WriteFailure) (hdf : df = first :: rest) :
    (fail = none →
      (_write_partitioned_parquet df fs fail).2 = .ok (first.date.year, first.date.month) ∧
      fsGet (_write_partitioned_parquet df fs fail).1 (first.date.year, first.date.month) =
        { final := some df, temp := none } ∧
      ∀ q, q ≠ (first.date.year, first.date.month) →
        fsGet (_write_partitioned_parquet df fs fail).1 q = fsGet fs q) ∧
    (∀ f, fail = some f →
      (∃ msg, (_write_partitioned_parquet df fs fail).2 = .error msg) ∧
      (fsGet (_write_partitioned_parquet df fs fail).1
          (first.date.year, first.date.month)).final =
        (fsGet fs (first.date.year, first.date.month)).final ∧
      (fsGet (_write_partitioned_parquet df fs fail).1
          (first.date.year, first.date.month)).temp = none ∧
      ∀ q, q ≠ (first.date.year, first.date.month) →
        fsGet (_write_partitioned_parquet df fs fail).1 q = fsGet fs q) := by
  subst hdf
  constructor
  · rintro rfl
    unfold _write_partitioned_parquet
    dsimp only
    refine ⟨rfl, ?_, ?_⟩
    · simp [renameTempFile, writeTempFile, fsGet_fsSet_same]
    · intro q hq
      unfold renameTempFile writeTempFile
      rw [fsGet_fsSet_other _ _ _ _ hq, fsGet_fsSet_other _ _ _ _ hq]
  · rintro f rfl
    unfold _write_partitioned_parquet
    cases f
    · dsimp only
      refine ⟨⟨"Failed to write Parquet file", rfl⟩, ?_, ?_, ?_⟩
      · simp [removeTempFile, fsGet_fsSet_same]
      · simp [removeTempFile, fsGet_fsSet_same]
      · intro q hq
        unfold removeTempFile
        rw [fsGet_fsSet_other _ _ _ _ hq]
    · dsimp only
      refine ⟨⟨"Failed to write Parquet file", rfl⟩, ?_, ?_, ?_⟩
      · simp [removeTempFile, writeTempFile, fsGet_fsSet_same]
      · simp [removeTempFile, writeTempFile, fsGet_fsSet_same]
      · intro q hq
        unfold removeTempFile writeTempFile
        rw [fsGet_fsSet_other _ _ _ _ hq, fsGet_fsSet_other _ _ _ _ hq]

/-- C4 witness: a successful concrete write lands the complete frame at
`daily_bars/year=2023/month=1/data.parquet` with no temp file left. -/
theorem C4_atomic_write_witness :
    (_write_partitioned_parquet [bar4] [] none).2 = .ok (2023, 1) ∧
    fsGet (_write_partitioned_parquet [bar4] [] none).1 (2023, 1) =
      { final := some [bar4], temp := none } := by
  have h := (C4_atomic_write [bar4] bar4 [] [] none rfl).1 rfl
  exact ⟨h.1, h.2.1⟩

/-- C7 (amended): a successful daily write stores ALL rows of the batch under
the single partition `year/month` derived from the FIRST row's date; rows
are not fanned out to partitions derived from their own dates, and every
other partition is untouched. -/
theorem C7_write_single_partition_of_first_row (df : List DailyBar) (first : DailyBar)
    (rest : List DailyBar) (fs : ParquetFS) (hdf : df = first :: rest) :
    (_write_partitioned_parquet df fs none).2 = .ok (first.date.year, first.date.month) ∧
    (fsGet (_write_partitioned_parquet df fs none).1
        (first.date.year, first.date.month)).final = some df ∧
    ∀ q, q ≠ (first.date.year, first.date.month) →
      fsGet (_write_partitioned_parquet df fs none).1 q = fsGet fs q := by
  subst hdf
  unfold _write_partitioned_parquet
  dsimp only
  refine ⟨rfl, ?_, ?_⟩
  · simp [renameTempFile, writeTempFile, fsGet_fsSet_same]
  · intro q hq
    unfold renameTempFile writeTempFile
    rw [fsGet_fsSet_other _ _ _ _ hq, fsGet_fsSet_other _ _ _ _ hq]

/-- C7 counterexample: a batch with one January and one February row is
written entirely under `year=2023/month=1` (the first row's partition); the
February row does NOT land under its own partition `year=2023/month=2`,
which stays empty. -/
theorem C7_counterexample :
    rowFeb.date.year = 2023 ∧ rowFeb.date.month = 2 ∧
    (fsGet (_write_partitioned_parquet [rowJan, rowFeb] [] none).1 (2023, 1)).final
      = some [rowJan, rowFeb] ∧
    fsGet (_write_partitioned_parquet [rowJan, rowFeb] [] none).1 (2023, 2)
      = PartitionDir.empty :=
  ⟨rfl, rfl, rfl, rfl⟩

/-- C7 witness: the amended theorem applied to a one-row January batch. -/
theorem C7_write_single_partition_of_first_row_witness :
    (fsGet (_write_partitioned_parquet [rowJan] [] none).1 (2023, 1)).final
      = some [rowJan] :=
  (C7_write_single_partition_of_first_row [rowJan] rowJan [] [] rfl).2.1

/-- C2 (amended): a daily batch containing a row with `high < low` is NOT
rejected by `write_daily_bars`: the write succeeds, the complete batch is
written under the target partition, catalog (provenance) rows are recorded,
and the violation is merely counted by `_validate_ohlcv`, whose
`passed = false` result is logged but never used to abort. -/
theorem C2_ohlcv_violation_does_not_abort_write (df : List DailyBar) (first : DailyBar)
    (rest : List DailyBar) (fs : ParquetFS) (db : BundleDB) (sm : SourceMetadata)
    (bn : String) (current_time : Int) (hdf : df = first :: rest)
    (hviol : ∃ r ∈ df, r.high < r.low) :
    (ParquetWriter.write_daily_bars df fs db (some sm) (some bn) none current_time).2
      = .ok (first.date.year, first.date.month) ∧
    (fsGet (ParquetWriter.write_daily_bars df fs db (some sm) (some bn) none
        current_time).1.1 (first.date.year, first.date.month)).final = some df ∧
    (ParquetWriter._validate_ohlcv df).passed = false := by
  have hpassed : (ParquetWriter._validate_ohlcv df).passed = false := by
    unfold ParquetWriter._validate_ohlcv
    dsimp only
    simp only [decide_eq_false_iff_not]
    intro h0
    rcases hviol with ⟨r, hr, hrl⟩
    have hpos : 0 < (df.filter (fun r =>
        decide (r.high < r.low ∨ r.high < r.open_ ∨ r.high < r.close ∨
                r.low > r.open_ ∨ r.low > r.close))).length :=
      length_filter_pos.mpr ⟨r, hr, by
        simp only [decide_eq_true_eq]
        exact Or.inl hrl⟩
    omega
  subst hdf
  unfold ParquetWriter.write_daily_bars
  unfold _write_partitioned_parquet
  dsimp only
  refine ⟨rfl, ?_, hpassed⟩
  simp [renameTempFile, writeTempFile, fsGet_fsSet_same]

/-- C2 counterexample: a one-row batch with `high = 9 < low = 12` is written
(file created under `year=2023/month=3`) and a new catalog row for bundle
`b2` is recorded — the writer does not reject the batch. -/
theorem C2_counterexample :
    violRow.high < violRow.low ∧
    (ParquetWriter.write_daily_bars [violRow] [] emptyDB2 (some sm2) (some "b2")
        none 1000).2 = .ok (2023, 3) ∧
    (fsGet (ParquetWriter.write_daily_bars [violRow] [] emptyDB2 (some sm2)
        (some "b2") none 1000).1.1 (2023, 3)).final = some [violRow] ∧
    ((ParquetWriter.write_daily_bars [violRow] [] emptyDB2 (some sm2) (some "b2")
        none 1000).1.2.bundle_metadata.map (fun r => r.bundle_name)) = ["b2"] := by
  refine ⟨by decide, rfl, rfl, rfl⟩

/-- C2 witness: the amended theorem applied to the concrete violating batch. -/
theorem C2_ohlcv_violation_does_not_abort_write_witness :
    (ParquetWriter.write_daily_bars [violRow] [] emptyDB2 (some sm2) (some "b2")
        none 1000).2 = .ok (2023, 3) ∧
    (ParquetWriter._validate_ohlcv [violRow]).passed = false := by
  have h := C2_ohlcv_violation_does_not_abort_write [violRow] violRow [] []
    emptyDB2 sm2 "b2" 1000 rfl ⟨violRow, by simp, by decide⟩
  exact ⟨h.1, h.2.2⟩

/-- An element of the last-n tail of a list is an element of the list. -/
theorem mem_tailN {α : Type} {l : List α} {n : Nat} {x : α} (h : x ∈ tailN l n) :
    x ∈ l := by
  unfold tailN at h
  exact List.mem_of_mem_drop h

/-- Every row of the group-by-sid tail aggregation comes from the input. -/
theorem mem_history_group {df : List BarRow} {n : Nat} {r : BarRow}
    (h : r ∈ history_group df n) : r ∈ df := by
  unfold history_group at h
  rw [List.mem_flatMap] at h
  rcases h with ⟨s, _, hr⟩
  have h2 := mem_tailN hr
  rw [List.mem_mergeSort] at h2
  exact (List.mem_filter.mp h2).1

/-- The start-of-day instant of a timestamp's calendar date never exceeds the
timestamp. -/
theorem dayStart_le (t : Int) : usPerDay * dateOf t ≤ t := by
  unfold dateOf usPerDay
  omega

/-- C1: with the simulation clock set, a spot or history query with a valid
field whose timestamp lies strictly after the clock raises `LookaheadError`;
and any row a successful query is built from carries an instant no later
than the clock (daily rows count as the start of their day). -/
theorem C1_portal_lookahead_gate (p : PolarsDataPortal) (now : Int)
    (assets : List Asset) (field : String) (dt : Int) (data_frequency : String)
    (bar_count : Nat) (frequency : String)
    (hnow : p.current_simulation_time = some now) (hf : field ∈ valid_fields) :
    (now < dt →
      p.get_spot_value assets field dt data_frequency = .error .lookaheadError ∧
      p.get_history_window assets dt bar_count frequency field data_frequency
        = .error .lookaheadError) ∧
    (∀ rows, get_spot_frame p assets field dt data_frequency = .ok rows →
      ∀ r ∈ rows, rowInstant data_frequency r.t ≤ now) ∧
    (∀ rows,
      p.get_history_window assets dt bar_count frequency field data_frequency
        = .ok rows →
      ∀ x ∈ rows, rowInstant data_frequency x.1 ≤ now) := by
  have hfn : ¬ field ∉ valid_fields := by simpa using hf
  refine ⟨?_, ?_, ?_⟩
  · intro hlt
    have hla : lookahead_check p dt = true := by
      simp only [lookahead_check, hnow, decide_eq_true_eq]
      exact hlt
    constructor
    · unfold PolarsDataPortal.get_spot_value get_spot_frame
      rw [if_neg hfn, if_pos hla]
      rfl
    · unfold PolarsDataPortal.get_history_window
      rw [if_neg hfn, if_pos hla]
  · intro rows hrows r hr
    by_cases hlt : now < dt
    · exfalso
      have hla : lookahead_check p dt = true := by
        simp only [lookahead_check, hnow, decide_eq_true_eq]
        exact hlt
      unfold get_spot_frame at hrows
      rw [if_neg hfn, if_pos hla] at hrows
      exact Except.noConfusion hrows
    · have hle : dt ≤ now := by omega
      have hla : ¬ lookahead_check p dt = true := by
        simp only [lookahead_check, hnow, decide_eq_true_eq]
        omega
      unfold get_spot_frame at hrows
      rw [if_neg hfn, if_neg hla] at hrows
      by_cases hd : data_frequency = "daily"
      · rw [if_pos hd] at hrows
        cases hdr : p.daily_reader with
        | none =>
          rw [hdr] at hrows
          exact Except.noConfusion hrows
        | some reader =>
          rw [hdr] at hrows
          dsimp only at hrows
          split_ifs at hrows
          injection hrows with hrows2
          subst hrows2
          have ht : r.t = dateOf dt := by
            have := (List.mem_filter.mp hr).2
            simpa using this
          rw [hd]
          simp only [rowInstant, if_pos rfl]
          calc usPerDay * r.t = usPerDay * dateOf dt := by rw [ht]
            _ ≤ dt := dayStart_le dt
            _ ≤ now := hle
      · rw [if_neg hd] at hrows
        by_cases hm : data_frequency = "minute"
        · rw [if_pos hm] at hrows
          cases hdr : p.minute_reader with
          | none =>
            rw [hdr] at hrows
            exact Except.noConfusion hrows
          | some reader =>
            rw [hdr] at hrows
            dsimp only at hrows
            split_ifs at hrows
            injection hrows with hrows2
            subst hrows2
            have ht : r.t = dt := by
              have := (List.mem_filter.mp hr).2
              simpa using this
            rw [hm]
            simp only [rowInstant]
            rw [if_neg (by decide)]
            omega
        · rw [if_neg hm] at hrows
          exact Except.noConfusion hrows
  · intro rows hrows x hx
    by_cases hlt : now < dt
    · exfalso
      have hla : lookahead_check p dt = true := by
        simp only [lookahead_check, hnow, decide_eq_true_eq]
        exact hlt
      unfold PolarsDataPortal.get_history_window at hrows
      rw [if_neg hfn, if_pos hla] at hrows
      exact Except.noConfusion hrows
    · have hle : dt ≤ now := by omega
      have hla : ¬ lookahead_check p dt = true := by
        simp only [lookahead_check, hnow, decide_eq_true_eq]
        omega
      unfold PolarsDataPortal.get_history_window at hrows
      rw [if_neg hfn, if_neg hla] at hrows
      by_cases hd : data_frequency = "daily"
      · rw [if_pos hd] at hrows
        cases hdr : p.daily_reader with
        | none =>
          rw [hdr] at hrows
          exact Except.noConfusion hrows
        | some reader =>
          rw [hdr] at hrows
          dsimp only at hrows
          split_ifs at hrows
          injection hrows with hrows2
          subst hrows2
          rcases List.mem_map.mp hx with ⟨r, hrmem, hxr⟩
          have hrt : r.t ≤ dateOf dt := by
            have := (List.mem_filter.mp (mem_history_group hrmem)).2
            simpa using this
          subst hxr
          rw [hd]
          have hds := dayStart_le dt
          simp only [rowInstant, if_pos]
          unfold dateOf usPerDay at hrt hds
          unfold usPerDay
          omega
      · rw [if_neg hd] at hrows
        by_cases hm : data_frequency = "minute"
        · rw [if_pos hm] at hrows
          cases hdr : p.minute_reader with
          | none =>
            rw [hdr] at hrows
            exact Except.noConfusion hrows
          | some reader =>
            rw [hdr] at hrows
            dsimp only at hrows
            split_ifs at hrows
            injection hrows with hrows2
            subst hrows2
            rcases List.mem_map.mp hx with ⟨r, hrmem, hxr⟩
            have hrt : r.t ≤ dt := by
              have := (List.mem_filter.mp (mem_history_group hrmem)).2
              simpa using this
            subst hxr
            rw [hm]
            simp only [rowInstant]
            rw [if_neg (by decide)]
            omega
        · rw [if_neg hm] at hrows
          exact Except.noConfusion hrows

/-- C1 witness: the theorem applied to a concrete portal whose clock stands
at instant 0; a query for instant 1 raises `LookaheadError` on both paths. -/
theorem C1_portal_lookahead_gate_witness :
    portal1.get_spot_value [{ sid := 1 }] "close" 1 "daily"
      = .error .lookaheadError ∧
    portal1.get_history_window [{ sid := 1 }] 1 5 "1d" "close" "daily"
      = .error .lookaheadError := by
  have h := C1_portal_lookahead_gate portal1 0 [{ sid := 1 }] "close" 1 "daily"
    5 "1d" rfl (by decide)
  exact h.1 (by decide)
